import Mathlib

/-!
Shallow embedding of the School_manager Django backend
(accounts, teachers, students apps) and proofs about its
RBAC / identity-consistency core.

Persistent state is modelled as explicit lists of rows; every Django
ORM call that can raise is modelled as a step that either succeeds,
fails deterministically on its own constraint (e.g. the unique
username column behind `User.objects.create_user`), or is interrupted
by an environment failure drawn from an explicit failure schedule
(the `try/except` blocks in the views exist precisely because any of
these calls can raise at runtime).
-/

/-- Django `django.contrib.auth.models.User` row (the Identity of the spec).
`username` is unique at the store level; `email` is not. -/
structure User where
  id : Nat
  username : String
  email : String
  password : String
  first_name : String
  last_name : String
  is_superuser : Bool
deriving Repr, DecidableEq

/-- Embeds `accounts.models.UserProfile`: `user` is a OneToOneField to User,
`role` a CharField (choices are not enforced on `.create`). -/
structure UserProfile where
  user_id : Nat
  role : String
deriving Repr, DecidableEq

/-- Embeds `teachers.models.Teacher`. -/
structure Teacher where
  id : Nat
  user_id : Nat
  first_name : String
  last_name : String
  email : String
  phone_number : String
  subject_specialization : String
  employee_id : String
  date_of_joining : String
  status : String
deriving Repr, DecidableEq

/-- Embeds `students.models.Student` (fields as listed by the serializers;
`assigned_teacher` is an optional reference to a Teacher id). -/
structure Student where
  id : Nat
  user_id : Nat
  first_name : String
  last_name : String
  email : String
  phone_number : String
  roll_number : String
  class_grade : String
  date_of_birth : String
  admission_date : String
  status : String
  assigned_teacher : Option Nat
deriving Repr, DecidableEq

/-- The persistent store: all four tables plus the id sequences. -/
structure DB where
  users : List User
  profiles : List UserProfile
  teachers : List Teacher
  students : List Student
  nextUserId : Nat
  nextTeacherId : Nat
  nextStudentId : Nat
deriving Repr, DecidableEq

def emptyDB : DB :=
  { users := [], profiles := [], teachers := [], students := [],
    nextUserId := 1, nextTeacherId := 1, nextStudentId := 1 }

/-- Embeds `User.objects.filter(username=...).exists()`. -/
def usernameExists (db : DB) (u : String) : Bool :=
  db.users.any (fun x => x.username == u)

/-- Embeds `User.objects.filter(email=...).exists()`. -/
def userEmailExists (db : DB) (e : String) : Bool :=
  db.users.any (fun x => x.email == e)

/-- Embeds `hasattr(user, 'userprofile')` / `user.userprofile`: the profile
linked one-to-one to the given user id, if any. -/
def findProfile (db : DB) (uid : Nat) : Option UserProfile :=
  db.profiles.find? (fun p => p.user_id == uid)

/-- Embeds `django.contrib.auth.authenticate(username=..., password=...)`:
returns the user when the credentials match, else None, never throws
(spec §4.1; credential hashing is delegated, modelled as equality on the
stored credential). -/
def authenticate (db : DB) (username password : String) : Option User :=
  db.users.find? (fun u => u.username == username && u.password == password)

/-- Embeds `User.objects.create_user(...)`: inserts a fresh row, raising
(`none`) iff the unique username column is violated. -/
def create_user (db : DB) (username email first_name last_name password : String) :
    Option (DB × Nat) :=
  if usernameExists db username then none
  else
    let uid := db.nextUserId
    some ({ db with
            users := db.users ++ [{ id := uid, username := username, email := email,
                                    password := password, first_name := first_name,
                                    last_name := last_name, is_superuser := false }],
            nextUserId := uid + 1 }, uid)

/-- The `user` object of a successful auth response body. -/
structure RespUser where
  id : Nat
  username : String
  email : String
  first_name : String
  last_name : String
  role : String
deriving Repr, DecidableEq

/-- Outcome of `accounts.views.login` (token strings abstracted away). -/
inductive LoginResult where
  | badRequest (msg : String)
  | unauthorized (msg : String)
  | ok (user : RespUser)
deriving Repr, DecidableEq

/-- Embeds `accounts.views.login`: request fields come through
`request.data.get`, so a missing field is `none` and Python falsiness
makes the empty string count as missing too. -/
def login (db : DB) (username password : Option String) : LoginResult :=
  let uname := username.getD ""
  let pwd := password.getD ""
  if uname == "" || pwd == "" then
    .badRequest "Username and password are required"
  else
    match authenticate db uname pwd with
    | some user =>
        let base := if user.is_superuser then "admin" else "student"
        let user_role :=
          match findProfile db user.id with
          | some p => p.role
          | none => base
        .ok { id := user.id, username := user.username, email := user.email,
              first_name := user.first_name, last_name := user.last_name,
              role := user_role }
    | none => .unauthorized "Invalid credentials"

/-- Extract the `role` field of a successful login response. -/
def LoginResult.roleOf : LoginResult → Option String
  | .ok u => some u.role
  | _ => none

/-- Payload of `accounts.views.register` (`request.data.get` fields). -/
structure RegisterReq where
  username : Option String
  password : Option String
  email : Option String
  first_name : Option String
  last_name : Option String
  role : Option String
deriving Repr, DecidableEq

/-- Environment-failure schedule for the three effectful steps of
`register` that follow the pre-checks: Identity creation, Profile
creation, token issuance. -/
structure RegFail where
  atUser : Bool
  atProfile : Bool
  atToken : Bool
deriving Repr, DecidableEq

def RegFail.none : RegFail := ⟨false, false, false⟩

/-- Outcome of `accounts.views.register`. -/
inductive RegResult where
  | badRequest (msg : String)
  | created (user : RespUser)
  | serverError (msg : String)
deriving Repr, DecidableEq

/-- Embeds `accounts.views.register`: pre-checks, then sequential creates
inside one `try/except Exception` that converts any failure into a
generic 500 — there is no transaction, so the rows created before a
failing step stay persisted. -/
def register (db : DB) (req : RegisterReq) (fail : RegFail) : RegResult × DB :=
  let username := req.username.getD ""
  let password := req.password.getD ""
  let email := req.email.getD ""
  let role := req.role.getD "student"
  if username == "" || password == "" || email == "" then
    (.badRequest "Username, password, and email are required", db)
  else if usernameExists db username then
    (.badRequest "Username already exists", db)
  else if userEmailExists db email then
    (.badRequest "Email already exists", db)
  else if fail.atUser then
    (.serverError "An error occurred during registration", db)
  else
    match create_user db username email (req.first_name.getD "") (req.last_name.getD "") password with
    | none => (.serverError "An error occurred during registration", db)
    | some (db1, uid) =>
      if fail.atProfile then
        (.serverError "An error occurred during registration", db1)
      else
        let db2 := { db1 with profiles := db1.profiles ++ [⟨uid, role⟩] }
        if fail.atToken then
          (.serverError "An error occurred during registration", db2)
        else
          (.created { id := uid, username := username, email := email,
                      first_name := req.first_name.getD "",
                      last_name := req.last_name.getD "", role := role }, db2)

/-! ## RBAC evaluator

`accounts/permissions.py` itself is not among the provided sources; only
its importers (`teachers/views.py`, `students/views.py`) and its tests
(`school_management/tests.py`) are.  The three permission classes are
therefore modelled from the spec (§4.2), and the per-view policy
assignments below them are taken from the views in src. -/

/-- HTTP method of a request that reached a viewset. -/
inductive Method where
  | GET | HEAD | OPTIONS | POST | PUT | PATCH | DELETE
deriving Repr, DecidableEq

/-- Embeds `rest_framework.permissions.SAFE_METHODS` (read operations). -/
def Method.isSafe : Method → Bool
  | .GET | .HEAD | .OPTIONS => true
  | _ => false

/-- Modelled from the spec: role resolution of §4.2 for the RBAC
evaluator (`accounts/permissions.py` is missing from src) — role :=
Profile.role if a Profile exists for the identity; else admin if the
identity has superuser privilege, else student. -/
def resolve_role (db : DB) (user : User) : String :=
  match findProfile db user.id with
  | some p => p.role
  | none => if user.is_superuser then "admin" else "student"

/-- Modelled from the spec: the Admin-or-read-only policy of §4.2
(`accounts/permissions.py` is missing from src) — write operations
allowed only if the resolved role is admin; read operations allowed for
any authenticated identity.  Unauthenticated requests are rejected with
401 before the evaluator runs, so the argument is an authenticated
identity's resolved role. -/
def IsAdminOrReadOnly (role : String) (m : Method) : Bool :=
  if m.isSafe then true else role == "admin"

/-- Modelled from the spec: the Student-or-teacher-or-admin policy of
§4.2 (`accounts/permissions.py` is missing from src) — any authenticated
identity with role in \x7bstudent, teacher, admin\x7d may perform any
operation, read or write. -/
def IsStudentOrTeacherOrAdmin (role : String) (_m : Method) : Bool :=
  role == "student" || role == "teacher" || role == "admin"

/-- Modelled from the spec: the Teacher-or-admin policy of §4.2
(`accounts/permissions.py` is missing from src) — allowed only if the
resolved role is teacher or admin. -/
def IsTeacherOrAdmin (role : String) (_m : Method) : Bool :=
  role == "teacher" || role == "admin"

/-- Embeds `TeacherViewSet.permission_classes = [IsAdminOrReadOnly]`
(src/teachers/views.py line 17). -/
def teacherEndpointAllows (role : String) (m : Method) : Bool :=
  IsAdminOrReadOnly role m

/-- Embeds `StudentViewSet.permission_classes = [IsStudentOrTeacherOrAdmin]`
(src/students/views.py line 17). -/
def studentEndpointAllows (role : String) (m : Method) : Bool :=
  IsStudentOrTeacherOrAdmin role m

/-! ## Admin-provisioned Teacher / Student creation -/

/-- Payload of `TeacherCreateSerializer` after field-level (type)
validation. -/
structure TeacherPayload where
  first_name : String
  last_name : String
  email : String
  phone_number : String
  subject_specialization : String
  employee_id : String
  date_of_joining : String
  status : String
deriving Repr, DecidableEq

/-- Payload of `StudentCreateSerializer` after field-level (type)
validation. -/
structure StudentPayload where
  first_name : String
  last_name : String
  email : String
  phone_number : String
  roll_number : String
  class_grade : String
  date_of_birth : String
  admission_date : String
  status : String
  assigned_teacher : Option Nat
deriving Repr, DecidableEq

/-- Embeds `Teacher.objects.filter(email=...).exists()`. -/
def teacherEmailExists (db : DB) (e : String) : Bool :=
  db.teachers.any (fun t => t.email == e)

/-- Embeds `Teacher.objects.filter(employee_id=...).exists()`. -/
def employeeIdExists (db : DB) (eid : String) : Bool :=
  db.teachers.any (fun t => t.employee_id == eid)

/-- Embeds `Student.objects.filter(email=...).exists()`. -/
def studentEmailExists (db : DB) (e : String) : Bool :=
  db.students.any (fun s => s.email == e)

/-- Embeds `Student.objects.filter(roll_number=...).exists()`. -/
def rollNumberExists (db : DB) (r : String) : Bool :=
  db.students.any (fun s => s.roll_number == r)

/-- Does a Teacher row with this primary key exist? -/
def teacherIdExists (db : DB) (tid : Nat) : Bool :=
  db.teachers.any (fun t => t.id == tid)

/-- Embeds `TeacherCreateSerializer.is_valid()`: the two uniqueness pre-checks
(`validate_email`, `validate_employee_id`). -/
def teacherPayloadValid (db : DB) (p : TeacherPayload) : Bool :=
  !teacherEmailExists db p.email && !employeeIdExists db p.employee_id

/-- Embeds `StudentCreateSerializer.is_valid()`: the two uniqueness pre-checks
(`validate_email`, `validate_roll_number`) plus the existence check the
generated `assigned_teacher` relation field performs. -/
def studentPayloadValid (db : DB) (p : StudentPayload) : Bool :=
  !studentEmailExists db p.email && !rollNumberExists db p.roll_number &&
  (match p.assigned_teacher with
   | some tid => teacherIdExists db tid
   | none => true)

/-- Environment-failure schedule for the three effectful steps of a
viewset `create`: Identity creation, Profile creation, domain-record
creation. -/
structure CreateFail where
  atUser : Bool
  atProfile : Bool
  atRecord : Bool
deriving Repr, DecidableEq

def CreateFail.none : CreateFail := ⟨false, false, false⟩

/-- Outcome of a viewset `create` (201 body abstracted to the new id). -/
inductive CreateResult where
  | badRequest (msg : String)
  | created (rid : Nat)
deriving Repr, DecidableEq

/-- Embeds `TeacherViewSet.create`: validate, then sequentially create the
Identity (username := email, fixed default credential), the Profile
(role teacher) and the Teacher row, all inside one
`try/except Exception` that converts any failure into a generic 400 —
no transaction, so rows created before a failing step stay persisted. -/
def teacherCreate (db : DB) (p : TeacherPayload) (fail : CreateFail) :
    CreateResult × DB :=
  if !teacherPayloadValid db p then
    (.badRequest "Failed to create teacher", db)
  else if fail.atUser then
    (.badRequest "Failed to create teacher", db)
  else
    match create_user db p.email p.email p.first_name p.last_name "defaultpassword123" with
    | none => (.badRequest "Failed to create teacher", db)
    | some (db1, uid) =>
      if fail.atProfile then
        (.badRequest "Failed to create teacher", db1)
      else
        let db2 := { db1 with profiles := db1.profiles ++ [⟨uid, "teacher"⟩] }
        if fail.atRecord then
          (.badRequest "Failed to create teacher", db2)
        else
          let tid := db2.nextTeacherId
          (.created tid,
           { db2 with
             teachers := db2.teachers ++
               [{ id := tid, user_id := uid, first_name := p.first_name,
                  last_name := p.last_name, email := p.email,
                  phone_number := p.phone_number,
                  subject_specialization := p.subject_specialization,
                  employee_id := p.employee_id,
                  date_of_joining := p.date_of_joining, status := p.status }],
             nextTeacherId := tid + 1 })

/-- Embeds `StudentViewSet.create`: same shape as `teacherCreate`, with the
Profile role student and the Student row last. -/
def studentCreate (db : DB) (p : StudentPayload) (fail : CreateFail) :
    CreateResult × DB :=
  if !studentPayloadValid db p then
    (.badRequest "Failed to create student", db)
  else if fail.atUser then
    (.badRequest "Failed to create student", db)
  else
    match create_user db p.email p.email p.first_name p.last_name "defaultpassword123" with
    | none => (.badRequest "Failed to create student", db)
    | some (db1, uid) =>
      if fail.atProfile then
        (.badRequest "Failed to create student", db1)
      else
        let db2 := { db1 with profiles := db1.profiles ++ [⟨uid, "student"⟩] }
        if fail.atRecord then
          (.badRequest "Failed to create student", db2)
        else
          let sid := db2.nextStudentId
          (.created sid,
           { db2 with
             students := db2.students ++
               [{ id := sid, user_id := uid, first_name := p.first_name,
                  last_name := p.last_name, email := p.email,
                  phone_number := p.phone_number, roll_number := p.roll_number,
                  class_grade := p.class_grade, date_of_birth := p.date_of_birth,
                  admission_date := p.admission_date, status := p.status,
                  assigned_teacher := p.assigned_teacher }],
             nextStudentId := sid + 1 })

/-! ## Partial update (PATCH) with identity sync -/

/-- Partial-update payload for `TeacherViewSet.update` (`partial=True`:
absent fields are `none`). -/
structure TeacherPatch where
  first_name : Option String
  last_name : Option String
  email : Option String
  phone_number : Option String
  subject_specialization : Option String
  employee_id : Option String
  date_of_joining : Option String
  status : Option String
deriving Repr, DecidableEq

/-- Partial-update payload for `StudentViewSet.update`.
`assigned_teacher` distinguishes absent (`none`) from present-but-null
(`some none`). -/
structure StudentPatch where
  first_name : Option String
  last_name : Option String
  email : Option String
  phone_number : Option String
  roll_number : Option String
  class_grade : Option String
  date_of_birth : Option String
  admission_date : Option String
  status : Option String
  assigned_teacher : Option (Option Nat)
deriving Repr, DecidableEq

/-- The `user_data` block shared by both `update` methods: copy
first_name / last_name / email from the validated data when present,
and set username to the email whenever email is present; then
`User.objects.filter(id=instance.user.id).update(**user_data)`. -/
def syncUser (u : User) (fn ln em : Option String) : User :=
  let u1 := match fn with
    | some f => { u with first_name := f }
    | none => u
  let u2 := match ln with
    | some l => { u1 with last_name := l }
    | none => u1
  match em with
  | some e => { u2 with email := e, username := e }
  | none => u2

/-- Embeds `TeacherSerializer` on a partial update: the model-level unique
columns (email, employee_id) are checked against the other rows. -/
def teacherPatchValid (db : DB) (inst : Teacher) (p : TeacherPatch) : Bool :=
  (match p.email with
   | some e => !(db.teachers.any (fun t => t.id != inst.id && t.email == e))
   | none => true) &&
  (match p.employee_id with
   | some eid => !(db.teachers.any (fun t => t.id != inst.id && t.employee_id == eid))
   | none => true)

/-- Embeds `StudentSerializer` on a partial update: unique columns (email,
roll_number) checked against the other rows, and the
`assigned_teacher` relation field checks the referenced Teacher
exists. -/
def studentPatchValid (db : DB) (inst : Student) (p : StudentPatch) : Bool :=
  (match p.email with
   | some e => !(db.students.any (fun s => s.id != inst.id && s.email == e))
   | none => true) &&
  (match p.roll_number with
   | some r => !(db.students.any (fun s => s.id != inst.id && s.roll_number == r))
   | none => true) &&
  (match p.assigned_teacher with
   | some (some tid) => teacherIdExists db tid
   | _ => true)

/-- Embeds `serializer.save()` on a Teacher instance: overwrite the fields
present in the validated data. -/
def applyTeacherPatch (t : Teacher) (p : TeacherPatch) : Teacher :=
  { t with
    first_name := p.first_name.getD t.first_name,
    last_name := p.last_name.getD t.last_name,
    email := p.email.getD t.email,
    phone_number := p.phone_number.getD t.phone_number,
    subject_specialization := p.subject_specialization.getD t.subject_specialization,
    employee_id := p.employee_id.getD t.employee_id,
    date_of_joining := p.date_of_joining.getD t.date_of_joining,
    status := p.status.getD t.status }

/-- Embeds `serializer.save()` on a Student instance. -/
def applyStudentPatch (s : Student) (p : StudentPatch) : Student :=
  { s with
    first_name := p.first_name.getD s.first_name,
    last_name := p.last_name.getD s.last_name,
    email := p.email.getD s.email,
    phone_number := p.phone_number.getD s.phone_number,
    roll_number := p.roll_number.getD s.roll_number,
    class_grade := p.class_grade.getD s.class_grade,
    date_of_birth := p.date_of_birth.getD s.date_of_birth,
    admission_date := p.admission_date.getD s.admission_date,
    status := p.status.getD s.status,
    assigned_teacher := p.assigned_teacher.getD s.assigned_teacher }

/-- Outcome of a viewset `update` (200 body abstracted to the id). -/
inductive UpdateResult where
  | badRequest (msg : String)
  | ok (rid : Nat)
deriving Repr, DecidableEq

/-- Embeds `TeacherViewSet.update`: fetch the instance, validate the partial
data, push the name/email fields onto the linked User row, then save
the Teacher row; any failure (including a missing id) is converted to a
generic 400 by the surrounding `except Exception`. -/
def teacherUpdate (db : DB) (tid : Nat) (p : TeacherPatch) : UpdateResult × DB :=
  match db.teachers.find? (fun t => t.id == tid) with
  | none => (.badRequest "Failed to update teacher", db)
  | some inst =>
    if !teacherPatchValid db inst p then
      (.badRequest "Failed to update teacher", db)
    else
      let db1 : DB := { db with
        users := db.users.map (fun (u : User) =>
          if u.id == inst.user_id then syncUser u p.first_name p.last_name p.email else u) }
      (.ok tid,
       { db1 with
         teachers := db1.teachers.map (fun (t : Teacher) =>
           if t.id == tid then applyTeacherPatch t p else t) })

/-- Embeds `StudentViewSet.update`: same shape as `teacherUpdate`. -/
def studentUpdate (db : DB) (sid : Nat) (p : StudentPatch) : UpdateResult × DB :=
  match db.students.find? (fun s => s.id == sid) with
  | none => (.badRequest "Failed to update student", db)
  | some inst =>
    if !studentPatchValid db inst p then
      (.badRequest "Failed to update student", db)
    else
      let db1 : DB := { db with
        users := db.users.map (fun (u : User) =>
          if u.id == inst.user_id then syncUser u p.first_name p.last_name p.email else u) }
      (.ok sid,
       { db1 with
         students := db1.students.map (fun (s : Student) =>
           if s.id == sid then applyStudentPatch s p else s) })

/-! ## Deletion -/

/-- Embeds `TeacherViewSet.destroy` (default `ModelViewSet` destroy) combined
with the store-level delete semantics of the Student → Teacher
relation.  Modelled from the spec: `students/models.py` is not under
src, and §3 fixes the on-delete policy — on Teacher deletion a
Student's `assigned_teacher` reference must resolve to null, not
dangle (SET_NULL). The Teacher's linked User row is not deleted
(§4.4: delete removes the domain record only). -/
def teacherDelete (db : DB) (tid : Nat) : DB :=
  if teacherIdExists db tid then
    { db with
      teachers := db.teachers.filter (fun t => t.id != tid),
      students := db.students.map (fun s =>
        if s.assigned_teacher == some tid then { s with assigned_teacher := none } else s) }
  else db

/-- Embeds `StudentViewSet.destroy`: removes the Student row only. -/
def studentDelete (db : DB) (sid : Nat) : DB :=
  if db.students.any (fun s => s.id == sid) then
    { db with students := db.students.filter (fun s => s.id != sid) }
  else db

/-- Embeds `StudentSerializer.get_assigned_teacher_name`: the teacher's full
name when a teacher is assigned, else null. -/
def get_assigned_teacher_name (db : DB) (s : Student) : Option String :=
  s.assigned_teacher.bind (fun tid =>
    (db.teachers.find? (fun t => t.id == tid)).map (fun t =>
      t.first_name ++ " " ++ t.last_name))

/-! ## Reachable states -/

/-- One state transition of the backend: any request to one of the
modelled mutating endpoints, under any failure schedule. -/
inductive Step : DB → DB → Prop where
  | reg (db : DB) (req : RegisterReq) (fail : RegFail) :
      Step db (register db req fail).2
  | tcreate (db : DB) (p : TeacherPayload) (fail : CreateFail) :
      Step db (teacherCreate db p fail).2
  | screate (db : DB) (p : StudentPayload) (fail : CreateFail) :
      Step db (studentCreate db p fail).2
  | tupdate (db : DB) (tid : Nat) (p : TeacherPatch) :
      Step db (teacherUpdate db tid p).2
  | supdate (db : DB) (sid : Nat) (p : StudentPatch) :
      Step db (studentUpdate db sid p).2
  | tdelete (db : DB) (tid : Nat) :
      Step db (teacherDelete db tid)
  | sdelete (db : DB) (sid : Nat) :
      Step db (studentDelete db sid)

/-- States reachable from the empty store by backend requests. -/
inductive Reachable : DB → Prop where
  | init : Reachable emptyDB
  | step (db db' : DB) : Reachable db → Step db db' → Reachable db'

/-- Referential integrity of §3: every `assigned_teacher` reference
points at an existing Teacher row. -/
def refIntegrity (db : DB) : Prop :=
  ∀ s ∈ db.students, ∀ tid, s.assigned_teacher = some tid →
    ∃ t ∈ db.teachers, t.id = tid

/-- Character-list prefix test (auxiliary to `mentions`). -/
def startsWithChars : List Char → List Char → Bool
  | [], _ => true
  | _ :: _, [] => false
  | p :: ps, c :: cs => p == c && startsWithChars ps cs

/-- Does `pat` occur as a contiguous run inside the list? -/
def occursInChars (pat : List Char) : List Char → Bool
  | [] => startsWithChars pat []
  | c :: cs => startsWithChars pat (c :: cs) || occursInChars pat cs

/-- Does the string `pat` occur inside `s`?  (Used to formalise "the
reported cause names the conflicting field".) -/
def mentions (s pat : String) : Bool :=
  occursInChars pat.toList s.toList

/-- The User row inserted by `create_user` on a given store. -/
def freshUser (db : DB) (username email password fn ln : String) : User :=
  { id := db.nextUserId, username := username, email := email,
    password := password, first_name := fn, last_name := ln,
    is_superuser := false }

/-! ## Concrete fixtures used by witnesses and counterexamples -/

/-- A store holding one registered identity (no profile). -/
def dbAlice : DB :=
  { users := [{ id := 1, username := "alice", email := "a@x.com",
                password := "pw", first_name := "A", last_name := "L",
                is_superuser := false }],
    profiles := [], teachers := [], students := [],
    nextUserId := 2, nextTeacherId := 1, nextStudentId := 1 }

/-- The identity row of `dbAlice`. -/
def aliceUser : User :=
  { id := 1, username := "alice", email := "a@x.com",
    password := "pw", first_name := "A", last_name := "L",
    is_superuser := false }

/-- A store where alice additionally has a teacher-role Profile. -/
def dbTeacherAlice : DB :=
  { dbAlice with profiles := [⟨1, "teacher"⟩] }

/-- A registration payload reusing the username of `dbAlice`. -/
def dupReq : RegisterReq :=
  { username := some "alice", password := some "pw", email := some "z@x.com",
    first_name := Option.none, last_name := Option.none, role := Option.none }

/-- A registration payload with fresh credentials asking for the admin
role. -/
def regAdminReq : RegisterReq :=
  { username := some "eve", password := some "pw", email := some "e@x.com",
    first_name := Option.none, last_name := Option.none, role := some "admin" }

/-- A valid Teacher payload. -/
def tPayload : TeacherPayload :=
  { first_name := "T", last_name := "W", email := "t@x.com",
    phone_number := "1", subject_specialization := "math",
    employee_id := "E1", date_of_joining := "2020-01-01", status := "active" }

/-- A valid Student payload. -/
def c1Payload : StudentPayload :=
  { first_name := "A", last_name := "B", email := "s@x.com",
    phone_number := "1", roll_number := "R1", class_grade := "5",
    date_of_birth := "2010-01-01", admission_date := "2020-06-01",
    status := "active", assigned_teacher := Option.none }

/-- A well-formed registration payload with fresh credentials. -/
def c8Req : RegisterReq :=
  { username := some "bob", password := some "pw", email := some "b@x.com",
    first_name := Option.none, last_name := Option.none, role := Option.none }

/-- A store holding one Student (roll number R1). -/
def c4DB : DB :=
  { users := [], profiles := [], teachers := [],
    students := [{ id := 1, user_id := 1, first_name := "S", last_name := "T",
                   email := "a@x.com", phone_number := "1", roll_number := "R1",
                   class_grade := "5", date_of_birth := "2010-01-01",
                   admission_date := "2020-06-01", status := "active",
                   assigned_teacher := Option.none }],
    nextUserId := 2, nextTeacherId := 1, nextStudentId := 2 }

/-- A Student payload reusing roll number R1 with a distinct email. -/
def c4Payload : StudentPayload :=
  { first_name := "X", last_name := "Y", email := "b@x.com",
    phone_number := "2", roll_number := "R1", class_grade := "6",
    date_of_birth := "2010-02-02", admission_date := "2021-06-01",
    status := "active", assigned_teacher := Option.none }

/-- A store with one Student linked to one Identity. -/
def c5User : User :=
  { id := 7, username := "old@x.com", email := "old@x.com", password := "pw",
    first_name := "O", last_name := "L", is_superuser := false }

def c5Student : Student :=
  { id := 3, user_id := 7, first_name := "O", last_name := "L",
    email := "old@x.com", phone_number := "1", roll_number := "R9",
    class_grade := "5", date_of_birth := "2010-01-01",
    admission_date := "2020-06-01", status := "active",
    assigned_teacher := Option.none }

def c5DB : DB :=
  { users := [c5User], profiles := [], teachers := [], students := [c5Student],
    nextUserId := 8, nextTeacherId := 1, nextStudentId := 4 }

/-- A partial update changing only the email. -/
def c5Patch : StudentPatch :=
  { first_name := Option.none, last_name := Option.none,
    email := some "new@x.com", phone_number := Option.none,
    roll_number := Option.none, class_grade := Option.none,
    date_of_birth := Option.none, admission_date := Option.none,
    status := Option.none, assigned_teacher := Option.none }

/-- A store with one Teacher and one Student assigned to it. -/
def c9Teacher : Teacher :=
  { id := 1, user_id := 2, first_name := "T", last_name := "W",
    email := "t@x.com", phone_number := "1", subject_specialization := "math",
    employee_id := "E1", date_of_joining := "2020-01-01", status := "active" }

def c9Student : Student :=
  { id := 1, user_id := 3, first_name := "S", last_name := "B",
    email := "s@x.com", phone_number := "1", roll_number := "R1",
    class_grade := "5", date_of_birth := "2010-01-01",
    admission_date := "2020-06-01", status := "active",
    assigned_teacher := some 1 }

def c9DB : DB :=
  { users := [], profiles := [], teachers := [c9Teacher],
    students := [c9Student],
    nextUserId := 4, nextTeacherId := 2, nextStudentId := 2 }

/-! ## Theorems -/

/-- C2: for every identity that logs in successfully, the role in the
login response equals the Profile role when a Profile exists; with no
Profile it is admin for a superuser and student otherwise, and the
resolution always produces a successful response (it never raises). -/
theorem login_role_resolution (db : DB) (un pw : String) (user : User)
    (hun : un ≠ "") (hpw : pw ≠ "")
    (hauth : authenticate db un pw = some user) :
    (∃ lu : RespUser, login db (some un) (some pw) = .ok lu) ∧
    (∀ p : UserProfile, findProfile db user.id = some p →
      (login db (some un) (some pw)).roleOf = some p.role) ∧
    (findProfile db user.id = none → user.is_superuser = true →
      (login db (some un) (some pw)).roleOf = some "admin") ∧
    (findProfile db user.id = none → user.is_superuser = false →
      (login db (some un) (some pw)).roleOf = some "student") := by
  have h1 : (un == "") = false := by
    simp only [beq_eq_false_iff_ne, ne_eq]
    exact hun
  have h2 : (pw == "") = false := by
    simp only [beq_eq_false_iff_ne, ne_eq]
    exact hpw
  have key : login db (some un) (some pw) =
      .ok { id := user.id, username := user.username, email := user.email,
            first_name := user.first_name, last_name := user.last_name,
            role := match findProfile db user.id with
                    | some p => p.role
                    | none => if user.is_superuser then "admin" else "student" } := by
    unfold login
    simp [h1, h2, hauth]
  refine ⟨⟨_, key⟩, ?_, ?_, ?_⟩
  · intro p hp
    rw [key]
    simp [LoginResult.roleOf, hp]
  · intro hp hsu
    rw [key]
    simp [LoginResult.roleOf, hp, hsu]
  · intro hp hsu
    rw [key]
    simp [LoginResult.roleOf, hp, hsu]

/-- Witness for `login_role_resolution` at a concrete store. -/
theorem login_role_resolution_witness :
    (login dbAlice (some "alice") (some "pw")).roleOf = some "student" := by
  have h := login_role_resolution dbAlice "alice" "pw"
    { id := 1, username := "alice", email := "a@x.com",
      password := "pw", first_name := "A", last_name := "L",
      is_superuser := false }
    (by decide) (by decide) (by decide)
  exact h.2.2.2 (by decide) (by decide)

/-- C3: on the Teacher collection, writes are allowed exactly for a
resolved role of admin (so a teacher-role identity is denied, i.e. 403)
while reads are allowed for every authenticated identity; on the
Student collection, any identity whose resolved role is student,
teacher or admin may perform any operation. -/
theorem rbac_collection_policies (db : DB) (u : User) :
    (∀ m : Method, m.isSafe = false →
      (teacherEndpointAllows (resolve_role db u) m = true ↔
        resolve_role db u = "admin")) ∧
    (∀ m : Method, m.isSafe = true →
      teacherEndpointAllows (resolve_role db u) m = true) ∧
    (∀ m : Method,
      (resolve_role db u = "student" ∨ resolve_role db u = "teacher" ∨
       resolve_role db u = "admin") →
      studentEndpointAllows (resolve_role db u) m = true) := by
  refine ⟨?_, ?_, ?_⟩
  · intro m hm
    simp [teacherEndpointAllows, IsAdminOrReadOnly, hm, beq_iff_eq]
  · intro m hm
    simp [teacherEndpointAllows, IsAdminOrReadOnly, hm]
  · intro m hr
    rcases hr with h | h | h <;>
      simp [studentEndpointAllows, IsStudentOrTeacherOrAdmin, h]

/-- Witness for `rbac_collection_policies`: in a store where alice has a
teacher Profile, she may not POST to /teachers, may GET /teachers, and
may POST to /students. -/
theorem rbac_collection_policies_witness :
    teacherEndpointAllows (resolve_role dbTeacherAlice aliceUser) .POST = false ∧
    teacherEndpointAllows (resolve_role dbTeacherAlice aliceUser) .GET = true ∧
    studentEndpointAllows (resolve_role dbTeacherAlice aliceUser) .POST = true := by
  have h := rbac_collection_policies dbTeacherAlice aliceUser
  refine ⟨?_, h.2.1 .GET (by decide), h.2.2 .POST (Or.inr (Or.inl (by decide)))⟩
  have hiff := h.1 .POST (by decide)
  by_contra hc
  have : teacherEndpointAllows (resolve_role dbTeacherAlice aliceUser) .POST = true := by
    revert hc
    cases teacherEndpointAllows (resolve_role dbTeacherAlice aliceUser) .POST <;> simp
  exact absurd (hiff.mp this) (by decide)

/-- C6: a self-registration whose username or email is already taken by
an existing Identity fails with a 400 whose message names the
conflicting field, and the store is unchanged (no Identity or Profile
persisted). -/
theorem register_duplicate_rejected (db : DB) (req : RegisterReq) (fail : RegFail)
    (un pw em : String)
    (hu : req.username = some un) (hp : req.password = some pw)
    (he : req.email = some em)
    (hun : un ≠ "") (hpw : pw ≠ "") (hem : em ≠ "") :
    (usernameExists db un = true →
      register db req fail = (.badRequest "Username already exists", db) ∧
      mentions "Username already exists" "Username" = true) ∧
    (usernameExists db un = false → userEmailExists db em = true →
      register db req fail = (.badRequest "Email already exists", db) ∧
      mentions "Email already exists" "Email" = true) := by
  have h1 : (un == "") = false := by
    simp only [beq_eq_false_iff_ne, ne_eq]
    exact hun
  have h2 : (pw == "") = false := by
    simp only [beq_eq_false_iff_ne, ne_eq]
    exact hpw
  have h3 : (em == "") = false := by
    simp only [beq_eq_false_iff_ne, ne_eq]
    exact hem
  constructor
  · intro hdup
    refine ⟨?_, by decide⟩
    unfold register
    simp [hu, hp, he, h1, h2, h3, hdup]
  · intro hfree hdup
    refine ⟨?_, by decide⟩
    unfold register
    simp [hu, hp, he, h1, h2, h3, hfree, hdup]

/-- Witness for `register_duplicate_rejected` on `dbAlice`. -/
theorem register_duplicate_rejected_witness :
    register dbAlice dupReq RegFail.none =
      (.badRequest "Username already exists", dbAlice) ∧
    mentions "Username already exists" "Username" = true := by
  exact (register_duplicate_rejected dbAlice dupReq RegFail.none
    "alice" "pw" "z@x.com" rfl rfl rfl
    (by decide) (by decide) (by decide)).1 (by decide)

/-- C10: self-registration requires no privilege and accepts any role
value: with an unused username and email and any requested role r, it
succeeds, persists a Profile with exactly role r, and returns r in the
response (in particular for r = admin or r = teacher). -/
theorem register_accepts_any_role (db : DB) (req : RegisterReq)
    (un pw em r : String)
    (hu : req.username = some un) (hp : req.password = some pw)
    (he : req.email = some em) (hr : req.role = some r)
    (hun : un ≠ "") (hpw : pw ≠ "") (hem : em ≠ "")
    (hfree : usernameExists db un = false)
    (hefree : userEmailExists db em = false) :
    register db req RegFail.none =
      (.created { id := db.nextUserId, username := un, email := em,
                  first_name := req.first_name.getD "",
                  last_name := req.last_name.getD "", role := r },
       { db with
         users := db.users ++
           [freshUser db un em pw (req.first_name.getD "") (req.last_name.getD "")],
         profiles := db.profiles ++ [⟨db.nextUserId, r⟩],
         nextUserId := db.nextUserId + 1 }) ∧
    (⟨db.nextUserId, r⟩ : UserProfile) ∈
      (register db req RegFail.none).2.profiles := by
  have h1 : (un == "") = false := by
    simp only [beq_eq_false_iff_ne, ne_eq]
    exact hun
  have h2 : (pw == "") = false := by
    simp only [beq_eq_false_iff_ne, ne_eq]
    exact hpw
  have h3 : (em == "") = false := by
    simp only [beq_eq_false_iff_ne, ne_eq]
    exact hem
  have key : register db req RegFail.none =
      (.created { id := db.nextUserId, username := un, email := em,
                  first_name := req.first_name.getD "",
                  last_name := req.last_name.getD "", role := r },
       { db with
         users := db.users ++
           [freshUser db un em pw (req.first_name.getD "") (req.last_name.getD "")],
         profiles := db.profiles ++ [⟨db.nextUserId, r⟩],
         nextUserId := db.nextUserId + 1 }) := by
    unfold register create_user freshUser
    simp [hu, hp, he, hr, h1, h2, h3, hfree, hefree, RegFail.none]
  refine ⟨key, ?_⟩
  rw [key]
  simp

/-- Witness for `register_accepts_any_role`: registering with role
admin on the empty store persists an admin Profile. -/
theorem register_accepts_any_role_witness :
    register emptyDB regAdminReq RegFail.none =
      (.created { id := 1, username := "eve", email := "e@x.com",
                  first_name := "", last_name := "", role := "admin" },
       { emptyDB with
         users := emptyDB.users ++ [freshUser emptyDB "eve" "e@x.com" "pw" "" ""],
         profiles := emptyDB.profiles ++ [⟨1, "admin"⟩],
         nextUserId := 2 }) ∧
    (⟨1, "admin"⟩ : UserProfile) ∈ (register emptyDB regAdminReq RegFail.none).2.profiles := by
  exact register_accepts_any_role emptyDB regAdminReq "eve" "pw" "e@x.com" "admin"
    rfl rfl rfl rfl (by decide) (by decide) (by decide) (by decide) (by decide)

/-- Inversion for a successful `create_user`. -/
theorem create_user_some (db : DB) (username email fn ln password : String)
    (db1 : DB) (uid : Nat)
    (h : create_user db username email fn ln password = some (db1, uid)) :
    db1 = { db with
            users := db.users ++ [freshUser db username email password fn ln],
            nextUserId := db.nextUserId + 1 } ∧
    uid = db.nextUserId := by
  unfold create_user at h
  split at h
  · exact absurd h (by simp)
  · unfold freshUser
    simp only [Option.some.injEq, Prod.mk.injEq] at h
    exact ⟨h.1.symm, h.2.symm⟩

/-- C7: a successful admin-provisioned creation persists an Identity
whose username and email both equal the payload email with the fixed
default credential, and a Profile for that Identity whose role matches
the record kind, linked from the new domain record. -/
theorem provision_creates_identity_and_profile (db : DB) :
    (∀ (p : TeacherPayload) (fail : CreateFail) (tid : Nat) (db' : DB),
      teacherCreate db p fail = (.created tid, db') →
      freshUser db p.email p.email "defaultpassword123" p.first_name p.last_name ∈ db'.users ∧
      (⟨db.nextUserId, "teacher"⟩ : UserProfile) ∈ db'.profiles ∧
      ∃ t ∈ db'.teachers, t.id = tid ∧ t.user_id = db.nextUserId) ∧
    (∀ (p : StudentPayload) (fail : CreateFail) (sid : Nat) (db' : DB),
      studentCreate db p fail = (.created sid, db') →
      freshUser db p.email p.email "defaultpassword123" p.first_name p.last_name ∈ db'.users ∧
      (⟨db.nextUserId, "student"⟩ : UserProfile) ∈ db'.profiles ∧
      ∃ s ∈ db'.students, s.id = sid ∧ s.user_id = db.nextUserId) := by
  constructor
  · intro p fail tid db' h
    unfold teacherCreate at h
    split at h
    · simp at h
    · split at h
      · simp at h
      · split at h
        · simp at h
        · rename_i db1 uid heq
          obtain ⟨hdb1, huid⟩ := create_user_some _ _ _ _ _ _ _ _ heq
          split at h
          · simp at h
          · split at h
            · simp at h
            · simp only [CreateResult.created.injEq, Prod.mk.injEq] at h
              obtain ⟨htid, hdb'⟩ := h
              subst hdb' hdb1 huid htid
              refine ⟨by simp, by simp, ?_⟩
              refine ⟨{ id := db.nextTeacherId, user_id := db.nextUserId,
                        first_name := p.first_name, last_name := p.last_name,
                        email := p.email, phone_number := p.phone_number,
                        subject_specialization := p.subject_specialization,
                        employee_id := p.employee_id,
                        date_of_joining := p.date_of_joining,
                        status := p.status }, by simp, rfl, rfl⟩
  · intro p fail sid db' h
    unfold studentCreate at h
    split at h
    · simp at h
    · split at h
      · simp at h
      · split at h
        · simp at h
        · rename_i db1 uid heq
          obtain ⟨hdb1, huid⟩ := create_user_some _ _ _ _ _ _ _ _ heq
          split at h
          · simp at h
          · split at h
            · simp at h
            · simp only [CreateResult.created.injEq, Prod.mk.injEq] at h
              obtain ⟨hsid, hdb'⟩ := h
              subst hdb' hdb1 huid hsid
              refine ⟨by simp, by simp, ?_⟩
              refine ⟨{ id := db.nextStudentId, user_id := db.nextUserId,
                        first_name := p.first_name, last_name := p.last_name,
                        email := p.email, phone_number := p.phone_number,
                        roll_number := p.roll_number, class_grade := p.class_grade,
                        date_of_birth := p.date_of_birth,
                        admission_date := p.admission_date, status := p.status,
                        assigned_teacher := p.assigned_teacher }, by simp, rfl, rfl⟩

/-- Witness for `provision_creates_identity_and_profile` on the empty
store. -/
theorem provision_creates_identity_and_profile_witness :
    freshUser emptyDB "t@x.com" "t@x.com" "defaultpassword123" "T" "W" ∈
      (teacherCreate emptyDB tPayload CreateFail.none).2.users ∧
    (⟨1, "teacher"⟩ : UserProfile) ∈
      (teacherCreate emptyDB tPayload CreateFail.none).2.profiles := by
  have hfst : (teacherCreate emptyDB tPayload CreateFail.none).1 = .created 1 := by
    decide
  have heq : teacherCreate emptyDB tPayload CreateFail.none =
      (.created 1, (teacherCreate emptyDB tPayload CreateFail.none).2) := by
    rw [← hfst]
  have h := (provision_creates_identity_and_profile emptyDB).1 tPayload
    CreateFail.none 1 (teacherCreate emptyDB tPayload CreateFail.none).2 heq
  exact ⟨h.1, h.2.1⟩

/-- C1 counterexample: on the empty store, when the domain-record step
of a Student provisioning fails, the operation is reported as failed
yet the newly created Identity and Profile remain visible — the claim
that no partial Identity/Profile/record survives a failing step is
false. -/
theorem provisioning_atomicity_cex :
    (studentCreate emptyDB c1Payload ⟨false, false, true⟩).1 =
      .badRequest "Failed to create student" ∧
    (studentCreate emptyDB c1Payload ⟨false, false, true⟩).2.users.length = 1 ∧
    (studentCreate emptyDB c1Payload ⟨false, false, true⟩).2.profiles.length = 1 ∧
    (studentCreate emptyDB c1Payload ⟨false, false, true⟩).2.students = [] := by
  decide

/-- C1 amended: every failing provisioning step yields the generic 400
failure, and the persisted state is determined by the step that failed:
a validation failure, or an Identity-creation failure (an environment
failure, or the payload email already taken as a username), leaves the
store unchanged; a Profile-creation failure leaves exactly the new
Identity persisted; a domain-record-creation failure leaves exactly the
new Identity and its Profile persisted. -/
theorem provisioning_failure_effects_by_step (db : DB) :
    (∀ (p : TeacherPayload) (fail : CreateFail),
      (teacherPayloadValid db p = false →
        teacherCreate db p fail = (.badRequest "Failed to create teacher", db)) ∧
      (teacherPayloadValid db p = true → fail.atUser = true →
        teacherCreate db p fail = (.badRequest "Failed to create teacher", db)) ∧
      (teacherPayloadValid db p = true → fail.atUser = false →
        usernameExists db p.email = true →
        teacherCreate db p fail = (.badRequest "Failed to create teacher", db)) ∧
      (teacherPayloadValid db p = true → fail.atUser = false →
        usernameExists db p.email = false → fail.atProfile = true →
        teacherCreate db p fail = (.badRequest "Failed to create teacher",
          { db with
            users := db.users ++
              [freshUser db p.email p.email "defaultpassword123" p.first_name p.last_name],
            nextUserId := db.nextUserId + 1 })) ∧
      (teacherPayloadValid db p = true → fail.atUser = false →
        usernameExists db p.email = false → fail.atProfile = false →
        fail.atRecord = true →
        teacherCreate db p fail = (.badRequest "Failed to create teacher",
          { db with
            users := db.users ++
              [freshUser db p.email p.email "defaultpassword123" p.first_name p.last_name],
            profiles := db.profiles ++ [⟨db.nextUserId, "teacher"⟩],
            nextUserId := db.nextUserId + 1 }))) ∧
    (∀ (p : StudentPayload) (fail : CreateFail),
      (studentPayloadValid db p = false →
        studentCreate db p fail = (.badRequest "Failed to create student", db)) ∧
      (studentPayloadValid db p = true → fail.atUser = true →
        studentCreate db p fail = (.badRequest "Failed to create student", db)) ∧
      (studentPayloadValid db p = true → fail.atUser = false →
        usernameExists db p.email = true →
        studentCreate db p fail = (.badRequest "Failed to create student", db)) ∧
      (studentPayloadValid db p = true → fail.atUser = false →
        usernameExists db p.email = false → fail.atProfile = true →
        studentCreate db p fail = (.badRequest "Failed to create student",
          { db with
            users := db.users ++
              [freshUser db p.email p.email "defaultpassword123" p.first_name p.last_name],
            nextUserId := db.nextUserId + 1 })) ∧
      (studentPayloadValid db p = true → fail.atUser = false →
        usernameExists db p.email = false → fail.atProfile = false →
        fail.atRecord = true →
        studentCreate db p fail = (.badRequest "Failed to create student",
          { db with
            users := db.users ++
              [freshUser db p.email p.email "defaultpassword123" p.first_name p.last_name],
            profiles := db.profiles ++ [⟨db.nextUserId, "student"⟩],
            nextUserId := db.nextUserId + 1 }))) := by
  constructor
  · intro p fail
    refine ⟨?_, ?_, ?_, ?_, ?_⟩
    · intro hv
      unfold teacherCreate
      simp [hv]
    · intro hv hatU
      unfold teacherCreate
      simp [hv, hatU]
    · intro hv hatU hdup
      unfold teacherCreate create_user
      simp [hv, hatU, hdup]
    · intro hv hatU hfree hatP
      unfold teacherCreate create_user freshUser
      simp [hv, hatU, hfree, hatP]
    · intro hv hatU hfree hatP hatR
      unfold teacherCreate create_user freshUser
      simp [hv, hatU, hfree, hatP, hatR]
  · intro p fail
    refine ⟨?_, ?_, ?_, ?_, ?_⟩
    · intro hv
      unfold studentCreate
      simp [hv]
    · intro hv hatU
      unfold studentCreate
      simp [hv, hatU]
    · intro hv hatU hdup
      unfold studentCreate create_user
      simp [hv, hatU, hdup]
    · intro hv hatU hfree hatP
      unfold studentCreate create_user freshUser
      simp [hv, hatU, hfree, hatP]
    · intro hv hatU hfree hatP hatR
      unfold studentCreate create_user freshUser
      simp [hv, hatU, hfree, hatP, hatR]

/-- Witness for `provisioning_failure_effects_by_step`: the
domain-record step fails on the empty store, leaving exactly the new
Identity and its Profile behind. -/
theorem provisioning_failure_effects_by_step_witness :
    studentCreate emptyDB c1Payload ⟨false, false, true⟩ =
      (.badRequest "Failed to create student",
       { emptyDB with
         users := emptyDB.users ++
           [freshUser emptyDB "s@x.com" "s@x.com" "defaultpassword123" "A" "B"],
         profiles := emptyDB.profiles ++ [⟨1, "student"⟩],
         nextUserId := 2 }) := by
  exact ((provisioning_failure_effects_by_step emptyDB).2 c1Payload
    ⟨false, false, true⟩).2.2.2.2 (by decide) rfl (by decide) rfl rfl


/-- C8 counterexample: a registration that passes the username/email
preconditions but whose Profile-creation step fails reports a generic
failure, yet the newly created Identity persists with no Profile — the
claim that no partial state (in particular no Identity without a
Profile) survives a failed registration is false. -/
theorem registration_atomicity_cex :
    (register emptyDB c8Req ⟨false, true, false⟩).1 =
      .serverError "An error occurred during registration" ∧
    (register emptyDB c8Req ⟨false, true, false⟩).2.users.length = 1 ∧
    (register emptyDB c8Req ⟨false, true, false⟩).2.profiles = [] := by
  decide

/-- C8 amended: for a registration that passes the username/email
preconditions, every later failing step reports the generic failure
and the persisted state is determined by the step that failed: a
failure at Identity creation leaves the store unchanged; a failure at
Profile creation leaves exactly the new Identity persisted, without a
Profile; a failure at token issuance leaves exactly the new Identity
and its Profile persisted. -/
theorem registration_failure_effects_by_step (db : DB) (req : RegisterReq)
    (un pw em : String)
    (hu : req.username = some un) (hp : req.password = some pw)
    (he : req.email = some em)
    (hun : un ≠ "") (hpw : pw ≠ "") (hem : em ≠ "")
    (hfree : usernameExists db un = false)
    (hefree : userEmailExists db em = false) :
    (∀ fail : RegFail, fail.atUser = true →
      register db req fail =
        (.serverError "An error occurred during registration", db)) ∧
    (∀ fail : RegFail, fail.atUser = false → fail.atProfile = true →
      register db req fail =
        (.serverError "An error occurred during registration",
         { db with
           users := db.users ++
             [freshUser db un em pw (req.first_name.getD "") (req.last_name.getD "")],
           nextUserId := db.nextUserId + 1 })) ∧
    (∀ fail : RegFail, fail.atUser = false → fail.atProfile = false →
      fail.atToken = true →
      register db req fail =
        (.serverError "An error occurred during registration",
         { db with
           users := db.users ++
             [freshUser db un em pw (req.first_name.getD "") (req.last_name.getD "")],
           profiles := db.profiles ++ [⟨db.nextUserId, req.role.getD "student"⟩],
           nextUserId := db.nextUserId + 1 })) := by
  have h1 : (un == "") = false := by
    simp only [beq_eq_false_iff_ne, ne_eq]
    exact hun
  have h2 : (pw == "") = false := by
    simp only [beq_eq_false_iff_ne, ne_eq]
    exact hpw
  have h3 : (em == "") = false := by
    simp only [beq_eq_false_iff_ne, ne_eq]
    exact hem
  refine ⟨?_, ?_, ?_⟩
  · intro fail hatU
    unfold register
    simp [hu, hp, he, h1, h2, h3, hfree, hefree, hatU]
  · intro fail hatU hatP
    unfold register create_user freshUser
    simp [hu, hp, he, h1, h2, h3, hfree, hefree, hatU, hatP]
  · intro fail hatU hatP hatT
    unfold register create_user freshUser
    simp [hu, hp, he, h1, h2, h3, hfree, hefree, hatU, hatP, hatT]

/-- Witness for `registration_failure_effects_by_step`: the
Profile-creation step fails on the empty store, leaving exactly the new
Identity persisted without a Profile. -/
theorem registration_failure_effects_by_step_witness :
    register emptyDB c8Req ⟨false, true, false⟩ =
      (.serverError "An error occurred during registration",
       { emptyDB with
         users := emptyDB.users ++ [freshUser emptyDB "bob" "b@x.com" "pw" "" ""],
         nextUserId := 2 }) := by
  exact (registration_failure_effects_by_step emptyDB c8Req "bob" "pw" "b@x.com"
    rfl rfl rfl (by decide) (by decide) (by decide) (by decide)
    (by decide)).2.1 ⟨false, true, false⟩ rfl rfl


/-- C4 counterexample: creating a second Student with an existing roll
number fails with 400 and persists nothing, but the response body is
the generic message, which does not name the conflicting field (the
field-specific serializer error is swallowed by the catch-all in the
view) — so the claim that the reported cause names the specific
conflicting field is false. -/
theorem duplicate_error_not_field_specific_cex :
    (studentCreate c4DB c4Payload CreateFail.none).1 =
      .badRequest "Failed to create student" ∧
    mentions "Failed to create student" "roll" = false ∧
    mentions "Failed to create student" "R1" = false ∧
    (studentCreate c4DB c4Payload CreateFail.none).2 = c4DB := by
  decide

/-- C4 amended: a Student create whose email or roll_number already
exists among Students, and a Teacher create whose email or employee_id
already exists among Teachers, fails with status 400 and persists
nothing, but the reported cause is the generic failure message of the
view's catch-all, which does not name the conflicting field. -/
theorem duplicate_create_rejected_generic (db : DB) :
    (∀ (p : StudentPayload) (fail : CreateFail),
      studentEmailExists db p.email = true ∨ rollNumberExists db p.roll_number = true →
      studentCreate db p fail = (.badRequest "Failed to create student", db)) ∧
    (∀ (p : TeacherPayload) (fail : CreateFail),
      teacherEmailExists db p.email = true ∨ employeeIdExists db p.employee_id = true →
      teacherCreate db p fail = (.badRequest "Failed to create teacher", db)) ∧
    mentions "Failed to create student" "email" = false ∧
    mentions "Failed to create student" "roll" = false ∧
    mentions "Failed to create teacher" "email" = false ∧
    mentions "Failed to create teacher" "employee" = false := by
  refine ⟨?_, ?_, by decide, by decide, by decide, by decide⟩
  · intro p fail hdup
    have hv : studentPayloadValid db p = false := by
      unfold studentPayloadValid
      rcases hdup with h | h <;> simp [h]
    unfold studentCreate
    simp [hv]
  · intro p fail hdup
    have hv : teacherPayloadValid db p = false := by
      unfold teacherPayloadValid
      rcases hdup with h | h <;> simp [h]
    unfold teacherCreate
    simp [hv]

/-- Witness for `duplicate_create_rejected_generic` at the
counterexample's store and payload. -/
theorem duplicate_create_rejected_generic_witness :
    studentCreate c4DB c4Payload CreateFail.none =
      (.badRequest "Failed to create student", c4DB) := by
  exact (duplicate_create_rejected_generic c4DB).1 c4Payload CreateFail.none
    (Or.inr (by decide))

/-- Field-level behaviour of the shared `user_data` sync block. -/
theorem syncUser_spec (u : User) (fn ln em : Option String) :
    (syncUser u fn ln em).id = u.id ∧
    (syncUser u fn ln em).password = u.password ∧
    (syncUser u fn ln em).is_superuser = u.is_superuser ∧
    (∀ e, em = some e →
      (syncUser u fn ln em).email = e ∧ (syncUser u fn ln em).username = e) ∧
    (em = Option.none →
      (syncUser u fn ln em).email = u.email ∧
      (syncUser u fn ln em).username = u.username) ∧
    (∀ f, fn = some f → (syncUser u fn ln em).first_name = f) ∧
    (fn = Option.none → (syncUser u fn ln em).first_name = u.first_name) ∧
    (∀ l, ln = some l → (syncUser u fn ln em).last_name = l) ∧
    (ln = Option.none → (syncUser u fn ln em).last_name = u.last_name) := by
  unfold syncUser
  rcases fn with _ | f <;> rcases ln with _ | l <;> rcases em with _ | e <;> simp

/-- C5: a successful partial update of a Student or Teacher pushes any
changed email / first_name / last_name onto the linked Identity in the
same operation, sets the Identity's username to the new email whenever
the email is updated, leaves those fields unchanged when absent from
the patch, and never touches the Identity's other fields. -/
theorem domain_update_syncs_identity (db : DB) :
    (∀ (sid : Nat) (patch : StudentPatch) (rid : Nat) (db' : DB) (inst : Student),
      db.students.find? (fun s => s.id == sid) = some inst →
      studentUpdate db sid patch = (.ok rid, db') →
      ∀ u ∈ db.users, u.id = inst.user_id →
      ∃ u' ∈ db'.users, u'.id = u.id ∧ u'.password = u.password ∧
        u'.is_superuser = u.is_superuser ∧
        (∀ e, patch.email = some e → u'.email = e ∧ u'.username = e) ∧
        (patch.email = Option.none → u'.email = u.email ∧ u'.username = u.username) ∧
        (∀ f, patch.first_name = some f → u'.first_name = f) ∧
        (patch.first_name = Option.none → u'.first_name = u.first_name) ∧
        (∀ l, patch.last_name = some l → u'.last_name = l) ∧
        (patch.last_name = Option.none → u'.last_name = u.last_name)) ∧
    (∀ (tid : Nat) (patch : TeacherPatch) (rid : Nat) (db' : DB) (inst : Teacher),
      db.teachers.find? (fun t => t.id == tid) = some inst →
      teacherUpdate db tid patch = (.ok rid, db') →
      ∀ u ∈ db.users, u.id = inst.user_id →
      ∃ u' ∈ db'.users, u'.id = u.id ∧ u'.password = u.password ∧
        u'.is_superuser = u.is_superuser ∧
        (∀ e, patch.email = some e → u'.email = e ∧ u'.username = e) ∧
        (patch.email = Option.none → u'.email = u.email ∧ u'.username = u.username) ∧
        (∀ f, patch.first_name = some f → u'.first_name = f) ∧
        (patch.first_name = Option.none → u'.first_name = u.first_name) ∧
        (∀ l, patch.last_name = some l → u'.last_name = l) ∧
        (patch.last_name = Option.none → u'.last_name = u.last_name)) := by
  constructor
  · intro sid patch rid db' inst hfind hupd u hu hid
    unfold studentUpdate at hupd
    simp only [hfind] at hupd
    split at hupd
    · simp at hupd
    · simp only [Prod.mk.injEq, UpdateResult.ok.injEq] at hupd
      obtain ⟨-, hdb'⟩ := hupd
      refine ⟨syncUser u patch.first_name patch.last_name patch.email, ?_, ?_⟩
      · rw [← hdb']
        have hfn : syncUser u patch.first_name patch.last_name patch.email =
            (fun (v : User) => if v.id == inst.user_id then
              syncUser v patch.first_name patch.last_name patch.email else v) u := by
          simp [hid]
        rw [hfn]
        exact List.mem_map_of_mem _ hu
      · have h := syncUser_spec u patch.first_name patch.last_name patch.email
        exact ⟨h.1, h.2.1, h.2.2.1, h.2.2.2.1, h.2.2.2.2.1, h.2.2.2.2.2.1,
               h.2.2.2.2.2.2.1, h.2.2.2.2.2.2.2.1, h.2.2.2.2.2.2.2.2⟩
  · intro tid patch rid db' inst hfind hupd u hu hid
    unfold teacherUpdate at hupd
    simp only [hfind] at hupd
    split at hupd
    · simp at hupd
    · simp only [Prod.mk.injEq, UpdateResult.ok.injEq] at hupd
      obtain ⟨-, hdb'⟩ := hupd
      refine ⟨syncUser u patch.first_name patch.last_name patch.email, ?_, ?_⟩
      · rw [← hdb']
        have hfn : syncUser u patch.first_name patch.last_name patch.email =
            (fun (v : User) => if v.id == inst.user_id then
              syncUser v patch.first_name patch.last_name patch.email else v) u := by
          simp [hid]
        rw [hfn]
        exact List.mem_map_of_mem _ hu
      · have h := syncUser_spec u patch.first_name patch.last_name patch.email
        exact ⟨h.1, h.2.1, h.2.2.1, h.2.2.2.1, h.2.2.2.2.1, h.2.2.2.2.2.1,
               h.2.2.2.2.2.2.1, h.2.2.2.2.2.2.2.1, h.2.2.2.2.2.2.2.2⟩

/-- Witness for `domain_update_syncs_identity`: updating only the email
of the Student in `c5DB`. -/
theorem domain_update_syncs_identity_witness :
    ∃ u' ∈ (studentUpdate c5DB 3 c5Patch).2.users, u'.id = c5User.id ∧
      u'.password = c5User.password ∧
      u'.is_superuser = c5User.is_superuser ∧
      (∀ e, c5Patch.email = some e → u'.email = e ∧ u'.username = e) ∧
      (c5Patch.email = Option.none →
        u'.email = c5User.email ∧ u'.username = c5User.username) ∧
      (∀ f, c5Patch.first_name = some f → u'.first_name = f) ∧
      (c5Patch.first_name = Option.none → u'.first_name = c5User.first_name) ∧
      (∀ l, c5Patch.last_name = some l → u'.last_name = l) ∧
      (c5Patch.last_name = Option.none → u'.last_name = c5User.last_name) := by
  have hfst : (studentUpdate c5DB 3 c5Patch).1 = .ok 3 := by decide
  have heq : studentUpdate c5DB 3 c5Patch =
      (.ok 3, (studentUpdate c5DB 3 c5Patch).2) := by
    rw [← hfst]
  exact (domain_update_syncs_identity c5DB).1 3 c5Patch 3
    (studentUpdate c5DB 3 c5Patch).2 c5Student (by decide) heq c5User
    (by decide) rfl

/-- Embeds `teacherIdExists` agrees with membership. -/
theorem teacherIdExists_iff (db : DB) (tid : Nat) :
    teacherIdExists db tid = true ↔ ∃ t ∈ db.teachers, t.id = tid := by
  unfold teacherIdExists
  simp [List.any_eq_true]

/-- Embeds `register` never touches the Student or Teacher tables. -/
theorem register_preserves_tables (db : DB) (req : RegisterReq) (fail : RegFail) :
    (register db req fail).2.students = db.students ∧
    (register db req fail).2.teachers = db.teachers := by
  unfold register
  simp only []
  split
  · exact ⟨rfl, rfl⟩
  · split
    · exact ⟨rfl, rfl⟩
    · split
      · exact ⟨rfl, rfl⟩
      · split
        · exact ⟨rfl, rfl⟩
        · split
          · exact ⟨rfl, rfl⟩
          · rename_i db1 uid heq
            obtain ⟨hdb1, -⟩ := create_user_some _ _ _ _ _ _ _ _ heq
            subst hdb1
            simp only []
            split
            · exact ⟨rfl, rfl⟩
            · split
              · exact ⟨rfl, rfl⟩
              · exact ⟨rfl, rfl⟩

/-- Embeds `teacherCreate` never touches the Student table and only appends to
the Teacher table. -/
theorem teacherCreate_tables (db : DB) (p : TeacherPayload) (fail : CreateFail) :
    (teacherCreate db p fail).2.students = db.students ∧
    ∀ t ∈ db.teachers, t ∈ (teacherCreate db p fail).2.teachers := by
  unfold teacherCreate
  simp only []
  split
  · exact ⟨rfl, fun t ht => ht⟩
  · split
    · exact ⟨rfl, fun t ht => ht⟩
    · split
      · exact ⟨rfl, fun t ht => ht⟩
      · rename_i db1 uid heq
        obtain ⟨hdb1, -⟩ := create_user_some _ _ _ _ _ _ _ _ heq
        subst hdb1
        simp only []
        split
        · exact ⟨rfl, fun t ht => ht⟩
        · split
          · exact ⟨rfl, fun t ht => ht⟩
          · exact ⟨rfl, fun t ht => List.mem_append_left _ ht⟩

/-- Embeds `studentCreate` preserves referential integrity: its validation
includes the existence check on `assigned_teacher`. -/
theorem studentCreate_preserves_refIntegrity (db : DB) (p : StudentPayload)
    (fail : CreateFail) (hri : refIntegrity db) :
    refIntegrity (studentCreate db p fail).2 := by
  unfold studentCreate
  simp only []
  split
  · exact hri
  · rename_i hvb
    have hv : studentPayloadValid db p = true := by
      revert hvb
      cases studentPayloadValid db p <;> simp
    have hfk : (match p.assigned_teacher with
                | some tid => teacherIdExists db tid
                | none => true) = true := by
      unfold studentPayloadValid at hv
      rw [Bool.and_eq_true] at hv
      exact hv.2
    split
    · exact hri
    · split
      · exact hri
      · rename_i db1 uid heq
        obtain ⟨hdb1, -⟩ := create_user_some _ _ _ _ _ _ _ _ heq
        subst hdb1
        simp only []
        split
        · exact hri
        · split
          · exact hri
          · intro s hs tid hst
            rcases List.mem_append.mp hs with hs | hs
            · exact hri s hs tid hst
            · have hrow := List.mem_singleton.mp hs
              subst hrow
              change p.assigned_teacher = some tid at hst
              rw [hst] at hfk
              exact (teacherIdExists_iff db tid).mp hfk

/-- Embeds `teacherUpdate` preserves referential integrity: it never removes a
Teacher row or changes a Teacher id, and never touches Students'
references. -/
theorem teacherUpdate_preserves_refIntegrity (db : DB) (tid : Nat)
    (p : TeacherPatch) (hri : refIntegrity db) :
    refIntegrity (teacherUpdate db tid p).2 := by
  unfold teacherUpdate
  split
  · exact hri
  · split
    · exact hri
    · intro s hs tid' hst
      obtain ⟨t, ht, htid⟩ := hri s hs tid' hst
      refine ⟨_, List.mem_map_of_mem
        (fun (t : Teacher) => if t.id == tid then applyTeacherPatch t p else t) ht, ?_⟩
      show (if (t.id == tid) = true then applyTeacherPatch t p else t).id = tid'
      by_cases h : (t.id == tid) = true
      · rw [if_pos h]
        exact htid
      · rw [if_neg h]
        exact htid

/-- Embeds `studentUpdate` preserves referential integrity: an updated
`assigned_teacher` is validated to exist, and Teachers are untouched. -/
theorem studentUpdate_preserves_refIntegrity (db : DB) (sid : Nat)
    (p : StudentPatch) (hri : refIntegrity db) :
    refIntegrity (studentUpdate db sid p).2 := by
  unfold studentUpdate
  split
  · exact hri
  · rename_i inst hfind
    split
    · exact hri
    · rename_i hvb
      have hv : studentPatchValid db inst p = true := by
        revert hvb
        cases studentPatchValid db inst p <;> simp
      have hfk : (match p.assigned_teacher with
                  | some (some t0) => teacherIdExists db t0
                  | _ => true) = true := by
        unfold studentPatchValid at hv
        rw [Bool.and_eq_true] at hv
        exact hv.2
      intro s' hs' tid' hst'
      obtain ⟨s, hs, hmap⟩ := List.mem_map.mp hs'
      subst hmap
      by_cases hcond : (s.id == sid) = true
      · rw [if_pos hcond] at hst'
        rcases hpa : p.assigned_teacher with _ | v
        · rw [show (applyStudentPatch s p).assigned_teacher =
              p.assigned_teacher.getD s.assigned_teacher from rfl, hpa] at hst'
          exact hri s hs tid' hst'
        · rcases v with _ | t0
          · rw [show (applyStudentPatch s p).assigned_teacher =
                p.assigned_teacher.getD s.assigned_teacher from rfl, hpa] at hst'
            simp at hst'
          · rw [show (applyStudentPatch s p).assigned_teacher =
                p.assigned_teacher.getD s.assigned_teacher from rfl, hpa] at hst'
            simp only [Option.getD_some, Option.some.injEq] at hst'
            simp only [hpa] at hfk
            rw [hst'] at hfk
            exact (teacherIdExists_iff db tid').mp hfk
      · rw [if_neg hcond] at hst'
        exact hri s hs tid' hst'

/-- Embeds `teacherDelete` preserves referential integrity: every Student that
referenced the deleted Teacher is reset to a null reference, and
references to other Teachers survive the filter. -/
theorem teacherDelete_preserves_refIntegrity (db : DB) (tid : Nat)
    (hri : refIntegrity db) :
    refIntegrity (teacherDelete db tid) := by
  unfold teacherDelete
  split
  · intro s' hs' tid' hst'
    obtain ⟨s, hs, hmap⟩ := List.mem_map.mp hs'
    subst hmap
    by_cases hcond : (s.assigned_teacher == some tid) = true
    · rw [if_pos hcond] at hst'
      simp at hst'
    · rw [if_neg hcond] at hst'
      obtain ⟨t, ht, htid⟩ := hri s hs tid' hst'
      have hne : tid' ≠ tid := by
        intro hcontra
        subst hcontra
        rw [hst'] at hcond
        simp at hcond
      refine ⟨t, List.mem_filter.mpr ⟨ht, ?_⟩, htid⟩
      subst htid
      simpa using hne
  · exact hri

/-- Embeds `studentDelete` preserves referential integrity. -/
theorem studentDelete_preserves_refIntegrity (db : DB) (sid : Nat)
    (hri : refIntegrity db) :
    refIntegrity (studentDelete db sid) := by
  unfold studentDelete
  split
  · intro s hs tid hst
    exact hri s (List.mem_filter.mp hs).1 tid hst
  · exact hri

/-- Every backend step preserves referential integrity. -/
theorem step_preserves_refIntegrity (db db' : DB) (h : Step db db')
    (hri : refIntegrity db) : refIntegrity db' := by
  cases h with
  | reg req fail =>
      intro s hs tid hst
      rw [(register_preserves_tables db req fail).1] at hs
      obtain ⟨t, ht, htid⟩ := hri s hs tid hst
      refine ⟨t, ?_, htid⟩
      rw [(register_preserves_tables db req fail).2]
      exact ht
  | tcreate p fail =>
      intro s hs tid hst
      rw [(teacherCreate_tables db p fail).1] at hs
      obtain ⟨t, ht, htid⟩ := hri s hs tid hst
      exact ⟨t, (teacherCreate_tables db p fail).2 t ht, htid⟩
  | screate p fail => exact studentCreate_preserves_refIntegrity db p fail hri
  | tupdate tid p => exact teacherUpdate_preserves_refIntegrity db tid p hri
  | supdate sid p => exact studentUpdate_preserves_refIntegrity db sid p hri
  | tdelete tid => exact teacherDelete_preserves_refIntegrity db tid hri
  | sdelete sid => exact studentDelete_preserves_refIntegrity db sid hri

/-- C9: in every reachable store, a Student's `assigned_teacher`
reference (when present) points at an existing Teacher; and after
deleting a referenced Teacher, each Student that referenced it is still
present with its reference reset to null, which the serializer renders
as a null teacher name. -/
theorem assigned_teacher_integrity :
    (∀ db : DB, Reachable db → refIntegrity db) ∧
    (∀ (db : DB) (tid : Nat) (s : Student),
      teacherIdExists db tid = true → s ∈ db.students →
      s.assigned_teacher = some tid →
      ({ s with assigned_teacher := Option.none } : Student) ∈
        (teacherDelete db tid).students ∧
      get_assigned_teacher_name (teacherDelete db tid)
        { s with assigned_teacher := Option.none } = Option.none) := by
  constructor
  · intro db h
    induction h with
    | init =>
        intro s hs tid hst
        exact absurd hs (by simp [emptyDB])
    | step db db' hr hstep ih => exact step_preserves_refIntegrity db db' hstep ih
  · intro db tid s hex hs hst
    constructor
    · unfold teacherDelete
      rw [if_pos hex]
      have hfn : ({ s with assigned_teacher := Option.none } : Student) =
          (fun (x : Student) => if x.assigned_teacher == some tid then
            { x with assigned_teacher := Option.none } else x) s := by
        simp [hst]
      rw [hfn]
      exact List.mem_map_of_mem _ hs
    · rfl

/-- Witness for `assigned_teacher_integrity`: the empty store is
reachable and integral, and deleting teacher 1 of `c9DB` leaves its
student present with a null reference and a null serialized name. -/
theorem assigned_teacher_integrity_witness :
    refIntegrity emptyDB ∧
    (({ c9Student with assigned_teacher := Option.none } : Student) ∈
        (teacherDelete c9DB 1).students ∧
      get_assigned_teacher_name (teacherDelete c9DB 1)
        { c9Student with assigned_teacher := Option.none } = Option.none) := by
  exact ⟨assigned_teacher_integrity.1 emptyDB Reachable.init,
         assigned_teacher_integrity.2 c9DB 1 c9Student (by decide)
           (by decide) rfl⟩
